import Mathlib

/-!
Verification development for the AACT MCP server (`src/server.py`).

The server exposes four tools (`list_tables`, `describe_table`, `read_query`,
`append_insight`) and two resources (`schema://database`, `memo://insights`)
over the AACT clinical-trials database.  We embed the tool layer shallowly:

* Python exceptions become an `Except PyError` result; the code raises
  `ValueError` with distinguishing messages, which we map onto the error
  taxonomy (`invalidArgument`, `rejectedQuery`, ...) those messages denote.
* The `DataStore` collaborator (`AACTDatabase.execute_query`) is passed in as
  a function argument; each tool also returns the list of calls it forwarded
  to the store, so that "no query reaches the data layer" is expressible.
* The MCP context notifications (`ctx.info`, `ctx.debug`, progress) are
  fire-and-forget logging and are not modelled, except for
  `ctx.session.send_resource_list_changed()` in `append_insight`, whose
  possible failure is an explicit `notifyOk` flag (it sits inside the
  `try` block, so its failure propagates to the caller).
* Python string methods `strip`, `upper`, `startswith` are embedded as
  executable functions over the character list of a `String`.
* `MemoManager` and `AACTDatabase` live in repository files not present
  under `src/`; the definitions below that stand in for them are modelled
  from the spec and marked as such in their doc comments.
-/

/-- Decidable equality for `Except`, used to evaluate tool results. -/
instance {ε α : Type} [DecidableEq ε] [DecidableEq α] : DecidableEq (Except ε α) := fun x y =>
  match x, y with
  | Except.error e, Except.error f =>
      if h : e = f then Decidable.isTrue (congrArg Except.error h)
      else Decidable.isFalse (fun hc => h (Except.error.inj hc))
  | Except.error _, Except.ok _ => Decidable.isFalse (fun hc => Except.noConfusion hc)
  | Except.ok _, Except.error _ => Decidable.isFalse (fun hc => Except.noConfusion hc)
  | Except.ok a, Except.ok b =>
      if h : a = b then Decidable.isTrue (congrArg Except.ok h)
      else Decidable.isFalse (fun hc => h (Except.ok.inj hc))

/-- The whitespace characters stripped by Python `str.strip()` (ASCII
range: space, tab, newline, carriage return, vertical tab, form feed). -/
def isPyWhitespace (c : Char) : Bool :=
  c == ' ' || c == '\t' || c == '\n' || c == '\x0d' || c == '\x0b' || c == '\x0c'

/-- Python `str.strip()` with no argument: removes leading and trailing
whitespace. -/
def pyStrip (s : String) : String :=
  String.mk (((s.data.dropWhile isPyWhitespace).reverse.dropWhile isPyWhitespace).reverse)

/-- Uppercasing of a single character in the ASCII range, as Python
`str.upper()` acts on the characters relevant here. -/
def upperChar (c : Char) : Char :=
  if 97 ≤ c.toNat ∧ c.toNat ≤ 122 then Char.ofNat (c.toNat - 32) else c

/-- Python `str.upper()` over the ASCII range. -/
def pyUpper (s : String) : String := String.mk (s.data.map upperChar)

/-- Whether the first list of characters begins the second. -/
def isCharPre : List Char → List Char → Bool
  | [], _ => true
  | _ :: _, [] => false
  | c :: cs, d :: ds => c == d && isCharPre cs ds

/-- Python `s.startswith(pre)`. -/
def pyStartswith (s pre : String) : Bool := isCharPre pre.data s.data

/-- Errors surfaced by the tool layer.  The Python code raises `ValueError`
with a message; the constructors record the taxonomy kind that each message
denotes (spec section 7) together with the message itself. -/
inductive PyError where
  | invalidArgument (msg : String)
  | rejectedQuery (msg : String)
  | queryExecutionFailed (msg : String)
  | notificationFailed
deriving DecidableEq

/-- Response model for `read_query` (`models.QueryResult`): the rows, their
count, and the capacity-reached flag.  Rows are passed through opaquely, so
the row type is a parameter. -/
structure QueryResult (α : Type) where
  rows : List α
  row_count : Nat
  truncated : Bool
deriving DecidableEq

/-- Response model for `append_insight` (`models.InsightResponse`). -/
structure InsightResponse where
  success : Bool
  total_insights : Nat
  message : String
deriving DecidableEq

/-- Response model for `describe_table` (`models.ColumnInfo`). -/
structure ColumnInfo where
  column_name : String
  data_type : String
  character_maximum_length : Option Nat
deriving DecidableEq

/-- Shape of one row returned by the column-introspection query issued by
`describe_table` (a dict row with these three keys). -/
structure DBColumnRow where
  column_name : String
  data_type : String
  character_maximum_length : Option Nat
deriving DecidableEq

/-- The process-wide `MemoManager` state: the ordered list of findings. -/
structure MemoManager where
  insights : List String
deriving DecidableEq

/-- Modelled from the spec: `MemoManager.add_insights` is defined in
`src/memo_manager.py`, which is not under `src/`.  Spec section 4.2:
append "fails with `InvalidArgument` if `finding` is empty or
whitespace-only. Otherwise appends atomically to the tail". -/
def add_insights (m : MemoManager) (finding : String) :
    Except PyError MemoManager :=
  if pyStrip finding = "" then
    Except.error (PyError.invalidArgument "Finding cannot be empty or whitespace-only")
  else
    Except.ok { insights := m.insights ++ [finding] }

/-- Modelled from the spec: `MemoManager.get_insights_memo` is defined in
`src/memo_manager.py`, which is not under `src/`.  Spec section 4.2,
`render()`: "if empty, returns a fixed placeholder noting no insights yet
recorded; otherwise returns a bulleted/numbered rendering of all findings
in append order". -/
def get_insights_memo (m : MemoManager) : String :=
  if m.insights.isEmpty then
    "No insights have been recorded yet."
  else
    String.intercalate "\n" (m.insights.map (fun s => "- " ++ s))

/-- Modelled from the spec: `AACTDatabase.execute_query` is defined in
`src/database.py`, which is not under `src/`.  Spec section 6 (DataStore
contract): "must apply `row_limit` server-side or client-side consistently
with the `truncated` semantics", i.e. at most `row_limit` of the rows the
query yields are returned, in order. -/
def execute_query {α : Type} (allRows : List α) (row_limit : Nat) : List α :=
  allRows.take row_limit

/-- Default for the `max_rows` parameter of `read_query` (`server.py`
line 109). -/
def DEFAULT_MAX_ROWS : Nat := 25

/-- The `read_query` tool (`server.py` lines 109-145).  `store` is the
`AACTDatabase.execute_query` collaborator, taking the forwarded SQL string
and the row limit; its failure is the re-raised query-execution error.
Returns the list of calls forwarded to the store together with the
result. -/
def read_query {α : Type} (store : String → Nat → Except String (List α))
    (query : String) (max_rows : Nat) :
    List (String × Nat) × Except PyError (QueryResult α) :=
  if query = "" then
    ([], Except.error (PyError.invalidArgument "Missing query argument"))
  else
    let q := pyStrip query
    if pyStartswith (pyUpper q) "SELECT" then
      match store q max_rows with
      | Except.error e =>
          ([(q, max_rows)], Except.error (PyError.queryExecutionFailed e))
      | Except.ok results =>
          ([(q, max_rows)],
           Except.ok { rows := results,
                       row_count := results.length,
                       truncated := decide (results.length ≥ max_rows) })
    else
      ([], Except.error (PyError.rejectedQuery "Only SELECT queries are allowed"))

/-- `read_query` with `max_rows` left at its default of 25. -/
def read_query_default {α : Type} (store : String → Nat → Except String (List α))
    (query : String) : List (String × Nat) × Except PyError (QueryResult α) :=
  read_query store query DEFAULT_MAX_ROWS

/-- The parameterized column-introspection SQL issued by `describe_table`
(`server.py` lines 88-94). -/
def columnsQuery : String :=
  "SELECT column_name, data_type, character_maximum_length FROM information_schema.columns WHERE table_schema = \x27ctgov\x27 AND table_name = %s ORDER BY ordinal_position;"

/-- The `describe_table` tool (`server.py` lines 80-106).  `store` receives
the SQL text and the bound `table_name` parameter.  Returns the list of
(sql, parameter) calls forwarded to the store together with the result. -/
def describe_table (store : String → String → Except String (List DBColumnRow))
    (table_name : String) :
    List (String × String) × Except PyError (List ColumnInfo) :=
  if table_name = "" then
    ([], Except.error (PyError.invalidArgument "Missing table_name argument"))
  else
    match store columnsQuery table_name with
    | Except.error e =>
        ([(columnsQuery, table_name)],
         Except.error (PyError.queryExecutionFailed e))
    | Except.ok results =>
        ([(columnsQuery, table_name)],
         Except.ok (results.map (fun r =>
           { column_name := r.column_name,
             data_type := r.data_type,
             character_maximum_length := r.character_maximum_length })))

/-- The `append_insight` tool (`server.py` lines 148-171).  `notifyOk`
models whether `ctx.session.send_resource_list_changed()` succeeds; it runs
inside the `try` block after the append, so when it fails the exception is
logged and re-raised while the memo keeps the appended entry.  Returns the
memo state after the call together with the result. -/
def append_insight (m : MemoManager) (notifyOk : Bool) (finding : String) :
    MemoManager × Except PyError InsightResponse :=
  if finding = "" then
    (m, Except.error (PyError.invalidArgument "Missing finding argument"))
  else
    match add_insights m finding with
    | Except.error e => (m, Except.error e)
    | Except.ok m2 =>
        if notifyOk then
          (m2, Except.ok { success := true,
                           total_insights := m2.insights.length,
                           message := "Insight added successfully" })
        else
          (m2, Except.error PyError.notificationFailed)

/-- A minimal JSON value type for the loaded schema document. -/
inductive Json where
  | null
  | bool (b : Bool)
  | num (n : Int)
  | str (s : String)
  | arr (elems : List Json)
  | obj (fields : List (String × Json))

/-- The module-level schema load (`server.py` lines 42-48): the result of
reading and parsing `database_schema.json` is an `Except`; on any failure
the error is logged and `schema` degrades to the empty mapping `{}`. -/
def schema (readResult : Except String Json) : Json :=
  match readResult with
  | Except.ok j => j
  | Except.error _ => Json.obj []

/-- The `schema://database` resource (`server.py` lines 50-53): serializes
the loaded `schema` value.  `dumps` stands for the external
`json.dumps(. , indent=2)` serializer. -/
def get_schema (dumps : Json → String) (s : Json) : String := dumps s

/-- Classifier used to state that a result is a `RejectedQuery` failure. -/
def isRejectedQueryError {β : Type} : Except PyError β → Bool
  | Except.error (PyError.rejectedQuery _) => true
  | _ => false

/-- A trivial store used for concrete evaluations: ignores the query and
returns no rows. -/
def store0 : String → Nat → Except String (List Nat) := fun _ _ => Except.ok []

/-- Claim C1 as frozen is false at the empty string: its stripped form does
not begin with SELECT, yet `read_query` fails with the missing-argument
`InvalidArgument` error (and forwards nothing), not with `RejectedQuery`. -/
theorem C1_counterexample :
    pyStartswith (pyUpper (pyStrip "")) "SELECT" = false ∧
    read_query store0 "" 25 =
      ([], Except.error (PyError.invalidArgument "Missing query argument")) ∧
    isRejectedQueryError (read_query store0 "" 25).2 = false := by decide

/-- Claim C1 (amended): for every NON-EMPTY input string whose
whitespace-stripped form does not begin, case-insensitively, with SELECT,
`read_query` fails with the `RejectedQuery` error ("Only SELECT queries are
allowed") and no query is forwarded to the DataStore. -/
theorem C1_amended {α : Type} (store : String → Nat → Except String (List α))
    (query : String) (n : Nat) (h1 : query ≠ "")
    (h2 : pyStartswith (pyUpper (pyStrip query)) "SELECT" = false) :
    read_query store query n =
      ([], Except.error (PyError.rejectedQuery "Only SELECT queries are allowed")) := by
  simp [read_query, h1, h2]

/-- Claim C1 witness: the amended theorem applies to "DELETE FROM studies". -/
theorem C1_witness :
    ("DELETE FROM studies" : String) ≠ "" ∧
    pyStartswith (pyUpper (pyStrip "DELETE FROM studies")) "SELECT" = false ∧
    read_query store0 "DELETE FROM studies" 25 =
      ([], Except.error (PyError.rejectedQuery "Only SELECT queries are allowed")) :=
  ⟨by decide, by decide, C1_amended store0 "DELETE FROM studies" 25 (by decide) (by decide)⟩

/-- Claim C2: for an accepted SELECT query over a data store holding
`allRows` (so `k = allRows.length`) under row limit `n`, the result is
`Except.ok` of a `QueryResult` whose `row_count` equals the length of its
`rows` and whose `truncated` flag is exactly `row_count >= n`; moreover
`row_count = min k n`, and at the boundary `k = n` the flag is true. -/
theorem C2_row_count_truncated {α : Type} (allRows : List α) (query : String) (n : Nat)
    (h1 : query ≠ "")
    (h2 : pyStartswith (pyUpper (pyStrip query)) "SELECT" = true) :
    (read_query (fun _ m => Except.ok (execute_query allRows m)) query n).2 =
      Except.ok { rows := execute_query allRows n,
                  row_count := (execute_query allRows n).length,
                  truncated := decide ((execute_query allRows n).length ≥ n) } ∧
    (execute_query allRows n).length = min allRows.length n ∧
    (allRows.length = n → decide ((execute_query allRows n).length ≥ n) = true) := by
  refine ⟨by simp [read_query, h1, h2], ?_, ?_⟩
  · simp [execute_query, List.length_take, Nat.min_comm]
  · intro hk
    simp [execute_query, List.length_take, hk, Nat.min_self]

/-- Claim C2 witness: three rows with row limit three — the boundary case —
gives `row_count = 3` and `truncated = true`. -/
theorem C2_witness :
    (read_query (fun _ m => Except.ok (execute_query [10, 20, 30] m)) "SELECT 1" 3).2 =
      Except.ok { rows := [10, 20, 30], row_count := 3, truncated := true } :=
  ((C2_row_count_truncated [10, 20, 30] "SELECT 1" 3 (by decide) (by decide)).1).trans (by decide)

/-- Claim C3: `append_insight` on the empty string or on a whitespace-only
string fails with an `InvalidArgument` error, and the memo length is
unchanged afterward. -/
theorem C3_empty_or_whitespace_finding (m : MemoManager) (notifyOk : Bool) :
    append_insight m notifyOk "" =
      (m, Except.error (PyError.invalidArgument "Missing finding argument")) ∧
    append_insight m notifyOk "   " =
      (m, Except.error (PyError.invalidArgument "Finding cannot be empty or whitespace-only")) ∧
    (append_insight m notifyOk "").1.insights.length = m.insights.length ∧
    (append_insight m notifyOk "   ").1.insights.length = m.insights.length := by
  have hne : ("   " : String) ≠ "" := by decide
  have hstrip : pyStrip "   " = "" := by decide
  have e1 : append_insight m notifyOk "" =
      (m, Except.error (PyError.invalidArgument "Missing finding argument")) := by
    simp [append_insight]
  have e2 : append_insight m notifyOk "   " =
      (m, Except.error (PyError.invalidArgument "Finding cannot be empty or whitespace-only")) := by
    simp [append_insight, add_insights, hne, hstrip]
  exact ⟨e1, e2, by rw [e1], by rw [e2]⟩

/-- Claim C4 as frozen is false: on the accepted input "  SELECT 1" the one
call forwarded to the DataStore carries the stripped string "SELECT 1",
which differs from the literal string the caller supplied. -/
theorem C4_counterexample :
    (read_query store0 "  SELECT 1" 25).1 = [("SELECT 1", 25)] ∧
    ("SELECT 1" : String) ≠ "  SELECT 1" := by decide

/-- Claim C4 (amended): when `read_query` accepts a query, the
whitespace-stripped query string is forwarded to the DataStore together
with a maximum-row instruction equal to the row limit (25 when the caller
leaves the default); the forwarded string coincides with the caller's
literal string whenever that string has no surrounding whitespace. -/
theorem C4_amended {α : Type} (store : String → Nat → Except String (List α))
    (query : String) (n : Nat) (h1 : query ≠ "")
    (h2 : pyStartswith (pyUpper (pyStrip query)) "SELECT" = true) :
    (read_query store query n).1 = [(pyStrip query, n)] ∧
    (read_query_default store query).1 = [(pyStrip query, DEFAULT_MAX_ROWS)] ∧
    DEFAULT_MAX_ROWS = 25 ∧
    (pyStrip query = query → (read_query store query n).1 = [(query, n)]) := by
  have key : ∀ m : Nat, (read_query store query m).1 = [(pyStrip query, m)] := by
    intro m
    cases hs : store (pyStrip query) m with
    | error e => simp [read_query, h1, h2, hs]
    | ok rs => simp [read_query, h1, h2, hs]
  exact ⟨key n, key DEFAULT_MAX_ROWS, rfl, fun hq => by rw [key n, hq]⟩

/-- Claim C4 witness: a whitespace-free SELECT is forwarded verbatim with
the caller-supplied row limit. -/
theorem C4_witness :
    (read_query store0 "SELECT nct_id FROM studies" 7).1 =
      [("SELECT nct_id FROM studies", 7)] :=
  (C4_amended store0 "SELECT nct_id FROM studies" 7 (by decide) (by decide)).2.2.2 (by decide)

/-- Claim C5 as frozen is false: with the same valid finding, the caller
observes success exactly when the resource-changed notification succeeds —
when it fails, an error reaches the caller — so observed append success is
NOT independent of notification delivery, even though the appended finding
does remain in the memo. -/
theorem C5_counterexample :
    (append_insight ⟨[]⟩ true "a").2 =
      Except.ok ⟨true, 1, "Insight added successfully"⟩ ∧
    (append_insight ⟨[]⟩ false "a").2 = Except.error PyError.notificationFailed ∧
    (append_insight ⟨[]⟩ false "a").1.insights = ["a"] := by decide

/-- Claim C5 (amended): if the resource-changed notification after a
successful append fails, the appended finding remains in the memo (no
rollback), but the failure propagates: the caller receives an error rather
than the success response it would receive with notification delivered. -/
theorem C5_amended (m : MemoManager) (finding : String)
    (h : pyStrip finding ≠ "") :
    (append_insight m false finding).1.insights = m.insights ++ [finding] ∧
    (append_insight m false finding).2 = Except.error PyError.notificationFailed ∧
    (append_insight m true finding).1.insights = m.insights ++ [finding] ∧
    (append_insight m true finding).2 =
      Except.ok ⟨true, m.insights.length + 1, "Insight added successfully"⟩ := by
  have hne : finding ≠ "" := by
    intro he
    apply h
    rw [he]
    decide
  refine ⟨?_, ?_, ?_, ?_⟩ <;> simp [append_insight, add_insights, hne, h]

/-- Claim C5 witness: the amended theorem applied to a concrete memo and
finding with the notification failing. -/
theorem C5_witness :
    pyStrip "Phase 3 dominates" ≠ "" ∧
    (append_insight ⟨["x"]⟩ false "Phase 3 dominates").1.insights =
      ["x", "Phase 3 dominates"] ∧
    (append_insight ⟨["x"]⟩ false "Phase 3 dominates").2 =
      Except.error PyError.notificationFailed :=
  ⟨by decide,
   ((C5_amended ⟨["x"]⟩ "Phase 3 dominates" (by decide)).1).trans (by decide),
   (C5_amended ⟨["x"]⟩ "Phase 3 dominates" (by decide)).2.1⟩

/-- Claim C6: starting from the empty memo, sequential appends of "a", "b",
"c" return `total_insights` 1, 2, 3 respectively, and the memo renders the
three findings in exactly that append order. -/
theorem C6_sequential_appends :
    (append_insight ⟨[]⟩ true "a").2 =
      Except.ok ⟨true, 1, "Insight added successfully"⟩ ∧
    (append_insight (append_insight ⟨[]⟩ true "a").1 true "b").2 =
      Except.ok ⟨true, 2, "Insight added successfully"⟩ ∧
    (append_insight (append_insight (append_insight ⟨[]⟩ true "a").1 true "b").1 true "c").2 =
      Except.ok ⟨true, 3, "Insight added successfully"⟩ ∧
    (append_insight (append_insight (append_insight ⟨[]⟩ true "a").1 true "b").1 true "c").1.insights =
      ["a", "b", "c"] ∧
    get_insights_memo
      (append_insight (append_insight (append_insight ⟨[]⟩ true "a").1 true "b").1 true "c").1 =
      "- a\n- b\n- c" := by decide

/-- Claim C7: every read or parse failure while loading the schema document
yields the empty mapping as the catalog — totally, with no error raised —
and the schema resource serves the serialization of whatever was loaded
(the empty mapping after a failure, the parsed document on success). -/
theorem C7_schema_load_failure (e : String) (j : Json) (dumps : Json → String) :
    schema (Except.error e) = Json.obj [] ∧
    get_schema dumps (schema (Except.error e)) = dumps (Json.obj []) ∧
    schema (Except.ok j) = j ∧
    get_schema dumps (schema (Except.ok j)) = dumps j :=
  ⟨rfl, rfl, rfl, rfl⟩

/-- Claim C8: `describe_table` on the empty table name fails with the
`InvalidArgument` error and forwards no introspection query to the data
layer, whatever the store would answer. -/
theorem C8_describe_table_empty_name
    (store : String → String → Except String (List DBColumnRow)) :
    describe_table store "" =
      ([], Except.error (PyError.invalidArgument "Missing table_name argument")) := by
  simp [describe_table]

/-- Claim C9: a non-empty, whitespace-only query passes the emptiness check
and is then rejected by the SELECT-prefix check on its stripped (empty)
form: `read_query` fails with "Only SELECT queries are allowed", not with
the missing-argument error, and forwards nothing. -/
theorem C9_whitespace_only_query {α : Type} (store : String → Nat → Except String (List α))
    (query : String) (n : Nat) (h1 : query ≠ "") (h2 : pyStrip query = "") :
    read_query store query n =
      ([], Except.error (PyError.rejectedQuery "Only SELECT queries are allowed")) := by
  have h3 : pyStartswith (pyUpper (pyStrip query)) "SELECT" = false := by
    rw [h2]
    decide
  simp [read_query, h1, h3]

/-- Claim C9 witness: the theorem applied to the three-space string. -/
theorem C9_witness :
    ("   " : String) ≠ "" ∧ pyStrip "   " = "" ∧
    read_query store0 "   " 7 =
      ([], Except.error (PyError.rejectedQuery "Only SELECT queries are allowed")) :=
  ⟨by decide, by decide, C9_whitespace_only_query store0 "   " 7 (by decide) (by decide)⟩

/-- Claim C10: for every non-empty query, the guard forwards the stripped
query to the DataStore exactly when the uppercased stripped query begins
with the six characters SELECT — no token boundary is required, so strings
such as "selectx 1" pass validation and are forwarded. -/
theorem C10_lexical_guard {α : Type} (store : String → Nat → Except String (List α))
    (query : String) (n : Nat) (h1 : query ≠ "") :
    (read_query store query n).1 = [(pyStrip query, n)] ↔
      pyStartswith (pyUpper (pyStrip query)) "SELECT" = true := by
  cases hc : pyStartswith (pyUpper (pyStrip query)) "SELECT" with
  | true =>
    cases hs : store (pyStrip query) n with
    | error e => simp [read_query, h1, hc, hs]
    | ok rs => simp [read_query, h1, hc, hs]
  | false => simp [read_query, h1, hc]

/-- Claim C10 witness: "selectx 1" and "SELECTION id FROM studies" are
accepted and forwarded despite SELECT not being a standalone token. -/
theorem C10_witness :
    ("selectx 1" : String) ≠ "" ∧
    (read_query store0 "selectx 1" 25).1 = [("selectx 1", 25)] ∧
    (read_query store0 "SELECTION id FROM studies" 25).1 =
      [("SELECTION id FROM studies", 25)] :=
  ⟨by decide,
   (C10_lexical_guard store0 "selectx 1" 25 (by decide)).mpr (by decide),
   (C10_lexical_guard store0 "SELECTION id FROM studies" 25 (by decide)).mpr (by decide)⟩
